import Mathlib

/-!
Shallow embedding of the outbound HTTP egress-control layer of
`server/public/shared/httpservice/httpservice.go` (Mattermost).

The embedded functions are `splitFields`, the `allowHost` and `allowIP`
closures built by `MakeTransport`, and `MakeTransport` itself.  The Go
standard-library helpers they call (`unicode.IsSpace`,
`strings.FieldsFunc`, `net.ParseCIDR`, `net.IPNet.Contains`,
`slices.Contains`) are embedded with their documented semantics,
restricted to IPv4 addresses (an IPv4 address is a natural number below
2 to the 32).  `IsReservedIP` and `IsOwnIP` live in files of the same
package that are not part of this snapshot; the embedding takes them as
explicit function parameters, so every theorem quantifies over their
possible behaviours.
-/

/-- Go `unicode.IsSpace`: the Unicode White_Space property
(Latin-1 space characters plus the White_Space table). -/
def unicodeIsSpace (c : Char) : Bool :=
  let n := c.toNat
  (0x9 ≤ n && n ≤ 0xD) || n == 0x20 || n == 0x85 || n == 0xA0 ||
  n == 0x1680 || (0x2000 ≤ n && n ≤ 0x200A) || n == 0x2028 || n == 0x2029 ||
  n == 0x202F || n == 0x205F || n == 0x3000

/-- `splitFields` from httpservice.go: a rune is a field separator when it
is a whitespace character or a comma. -/
def splitFields (c : Char) : Bool :=
  unicodeIsSpace c || c == ','

/-- Helper for `fieldsFunc`: walks the character list accumulating the
current (reversed) field. -/
def fieldsFuncAux (f : Char → Bool) : List Char → List Char → List (List Char)
  | [], acc => if acc.isEmpty then [] else [acc.reverse]
  | c :: cs, acc =>
    if f c then
      if acc.isEmpty then fieldsFuncAux f cs []
      else acc.reverse :: fieldsFuncAux f cs []
    else fieldsFuncAux f cs (c :: acc)

/-- Go `strings.FieldsFunc f s`: splits `s` at every rune satisfying `f`,
dropping empty fields; the empty string yields no fields. -/
def fieldsFunc (f : Char → Bool) (s : String) : List String :=
  (fieldsFuncAux f s.data []).map (fun l => String.mk l)

/-- Go `model.SafeDereference` at type `*string`: dereference, with the
zero value (the empty string) for nil. -/
def SafeDereference : Option String → String
  | none => ""
  | some s => s

/-- One decimal component of a dotted-quad IPv4 address, Go semantics
(`net.ParseIP` since Go 1.17): one to three digits, no leading zero,
value at most 255. -/
def parseDecOctet (cs : List Char) : Option Nat :=
  if cs.isEmpty || cs.length > 3 then none
  else if !(cs.all Char.isDigit) then none
  else if cs.length > 1 && cs.head? == some '0' then none
  else
    let n := cs.foldl (fun a c => a * 10 + (c.toNat - 48)) 0
    if n ≤ 255 then some n else none

/-- Splits a character list at every occurrence of `sep`, keeping empty
pieces (Go `strings.Split` on a one-rune separator). -/
def splitOnChar (sep : Char) : List Char → List (List Char)
  | [] => [[]]
  | c :: cs =>
    if c == sep then [] :: splitOnChar sep cs
    else
      match splitOnChar sep cs with
      | [] => [[c]]
      | p :: ps => (c :: p) :: ps

/-- Go IPv4 textual address parsing: four dot-separated decimal octets,
packed big-endian into a natural number below 2 to the 32. -/
def parseIPv4 (cs : List Char) : Option Nat :=
  match splitOnChar '.' cs with
  | [a, b, c, d] => do
    let a ← parseDecOctet a
    let b ← parseDecOctet b
    let c ← parseDecOctet c
    let d ← parseDecOctet d
    some (((a * 256 + b) * 256 + c) * 256 + d)
  | _ => none

/-- Splits a character list at the first occurrence of `sep`, or `none`
when `sep` does not occur. -/
def splitFirst (sep : Char) : List Char → Option (List Char × List Char)
  | [] => none
  | c :: cs =>
    if c == sep then some ([], cs)
    else (splitFirst sep cs).map (fun p => (c :: p.1, p.2))

/-- The mask length of a CIDR: a run of decimal digits whose value is at
most 32 (Go `dtoi` inside `net.ParseCIDR`). -/
def parseMaskLen (cs : List Char) : Option Nat :=
  if cs.isEmpty || cs.length > 2 then none
  else if !(cs.all Char.isDigit) then none
  else
    let n := cs.foldl (fun a c => a * 10 + (c.toNat - 48)) 0
    if n ≤ 32 then some n else none

/-- Go `net.ParseCIDR` restricted to IPv4: `addr/len` where `addr` is a
dotted quad and `len` a mask length; the returned network address is the
input address with its host bits cleared (`ip.Mask(mask)`). -/
def ParseCIDR (s : String) : Option (Nat × Nat) :=
  match splitFirst '/' s.data with
  | none => none
  | some (addr, mask) => do
    let ip ← parseIPv4 addr
    let n ← parseMaskLen mask
    some (ip / 2 ^ (32 - n) * 2 ^ (32 - n), n)

/-- Go `net.IPNet.Contains`: the candidate address, with its host bits
cleared by the network mask, equals the network address. -/
def cidrContains : Nat × Nat → Nat → Bool
  | (net, n), ip => ip / 2 ^ (32 - n) * 2 ^ (32 - n) == net

/-- The two configuration fields the httpservice reads, both nullable
pointers in Go (`model.Config.ServiceSettings`). -/
structure ServiceSettingsT where
  AllowedUntrustedInternalConnections : Option String
  EnableInsecureOutgoingConnections : Option Bool
  deriving DecidableEq

/-- The slice of `model.Config` the httpservice consumes. -/
structure Config where
  ServiceSettings : ServiceSettingsT
  deriving DecidableEq

/-- The three error shapes `allowIP` can produce, mirroring its three
`fmt.Errorf` sites: the wrap of an `IsOwnIP` failure, the reserved-range
denial and the self-assigned denial (each naming the IP). -/
inductive IPError where
  | ownIPCheckFailed (underlying : String)
  | reservedRange (ip : Nat)
  | selfAssigned (ip : Nat)
  deriving DecidableEq

/-- The `allowHost` closure built by `MakeTransport` (httpservice.go):
nil allow-list means no host is allowed; otherwise the host must be one
of the whitespace/comma separated fields (`slices.Contains` on
`strings.FieldsFunc`).  `cfg` is the configuration returned by the
`Config()` call the closure makes when invoked. -/
def allowHost (cfg : Config) (host : String) : Bool :=
  match cfg.ServiceSettings.AllowedUntrustedInternalConnections with
  | none => false
  | some s => (fieldsFunc splitFields s).contains host

/-- The `allowIP` closure built by `MakeTransport` (httpservice.go),
with the package functions `IsReservedIP` and `IsOwnIP` (defined in
files outside this snapshot) passed as parameters.  `cfg` is the
configuration returned by the `Config()` call the closure makes when
invoked.  The Go loop over the allow-list fields, returning nil at the
first field that parses as a CIDR containing the IP, is `List.any`. -/
def allowIP (isReservedIP : Nat → Bool) (isOwnIP : Nat → Except String Bool)
    (cfg : Config) (ip : Nat) : Except IPError Unit :=
  let reservedIP := isReservedIP ip
  match isOwnIP ip with
  | .error e => .error (.ownIPCheckFailed e)
  | .ok ownIP =>
    if !reservedIP && !ownIP then .ok ()
    else if (fieldsFunc splitFields
        (SafeDereference cfg.ServiceSettings.AllowedUntrustedInternalConnections)).any
        (fun allowed =>
          match ParseCIDR allowed with
          | some ipRange => cidrContains ipRange ip
          | none => false) then .ok ()
    else if reservedIP then .error (.reservedRange ip)
    else .error (.selfAssigned ip)

/-- Modelled from the spec: `MattermostTransport` / `NewTransport`
(transport.go, not part of this snapshot) store the insecure flag and
the two optional dial-time checks on the transport; a nil check means
the corresponding validation is skipped.  The type parameter `σ` is the
state of the live configuration source: the Go closures call
`h.configService.Config()` each time they run, so each embedded check
takes the state at which it is invoked. -/
structure MattermostTransport (σ : Type) where
  insecure : Bool
  allowHostCheck : Option (σ → String → Bool)
  allowIPCheck : Option (σ → Nat → Except IPError Unit)

/-- Modelled from the spec: `NewTransport` packs its three arguments
into the transport. -/
def NewTransport {σ : Type} (insecure : Bool)
    (ah : Option (σ → String → Bool))
    (ai : Option (σ → Nat → Except IPError Unit)) : MattermostTransport σ :=
  { insecure := insecure, allowHostCheck := ah, allowIPCheck := ai }

/-- `MakeTransport` from httpservice.go.  `configService` is the live
configuration source, read at state `s0` for the insecure flag (the Go
code evaluates `EnableInsecureOutgoingConnections != nil && *...` at the
`MakeTransport` call) and re-read by each closure at the state at which
the closure is invoked. -/
def MakeTransport {σ : Type} (isReservedIP : Nat → Bool)
    (isOwnIP : Nat → Except String Bool)
    (configService : σ → Config) (s0 : σ) (trustURLs : Bool) :
    MattermostTransport σ :=
  let insecure :=
    match (configService s0).ServiceSettings.EnableInsecureOutgoingConnections with
    | some b => b
    | none => false
  if trustURLs then NewTransport insecure none none
  else NewTransport insecure
    (some (fun s host => allowHost (configService s) host))
    (some (fun s ip => allowIP isReservedIP isOwnIP (configService s) ip))

/-- Modelled from the spec: the untrusted dial path (transport.go, not
part of this snapshot) evaluates the host allow-list before resolving
and classifying the IP, and a host match short-circuits the IP check. -/
def checkDestination (ah : String → Bool) (ai : Nat → Except IPError Unit)
    (host : String) (ip : Nat) : Except IPError Unit :=
  if ah host then .ok () else ai ip

example : fieldsFunc splitFields "10.0.0.0/8, internal.example.com  other.local" =
    ["10.0.0.0/8", "internal.example.com", "other.local"] := by decide

example : ParseCIDR "127.0.0.0/8" = some (2130706432, 8) := by decide

example : cidrContains (2130706432, 8) 2130706433 = true := by decide

/-- The empty allow-list string splits into no fields. -/
theorem fieldsFunc_empty (f : Char → Bool) : fieldsFunc f "" = [] := rfl

/-- When `IsOwnIP` succeeds and the IP is reserved or own, `allowIP`
reduces to the allow-list scan followed by the two denial branches. -/
theorem allowIP_reservedOrOwn_eq (isReservedIP : Nat → Bool)
    (isOwnIP : Nat → Except String Bool) (cfg : Config) (ip : Nat) (own : Bool)
    (hown : isOwnIP ip = Except.ok own) (hro : (isReservedIP ip || own) = true) :
    allowIP isReservedIP isOwnIP cfg ip =
      if (fieldsFunc splitFields
          (SafeDereference cfg.ServiceSettings.AllowedUntrustedInternalConnections)).any
          (fun allowed =>
            match ParseCIDR allowed with
            | some ipRange => cidrContains ipRange ip
            | none => false)
      then Except.ok ()
      else if isReservedIP ip then Except.error (IPError.reservedRange ip)
      else Except.error (IPError.selfAssigned ip) := by
  have h1 : (!isReservedIP ip && !own) = false := by
    cases hr : isReservedIP ip <;> cases ho : own <;> simp_all
  simp only [allowIP, hown, h1, Bool.false_eq_true, if_false]

/-- The allow-list scan succeeds exactly when some field parses as a
CIDR whose range contains the IP. -/
theorem cidrScan_exists (ip : Nat) (l : List String) :
    (l.any (fun allowed =>
        match ParseCIDR allowed with
        | some ipRange => cidrContains ipRange ip
        | none => false) = true) ↔
      ∃ field ∈ l, ∃ ipRange, ParseCIDR field = some ipRange ∧
        cidrContains ipRange ip = true := by
  rw [List.any_eq_true]
  constructor
  · rintro ⟨field, hmem, hp⟩
    refine ⟨field, hmem, ?_⟩
    cases h : ParseCIDR field with
    | none => rw [h] at hp; exact absurd hp (by simp)
    | some ipRange => exact ⟨ipRange, rfl, by rwa [h] at hp⟩
  · rintro ⟨field, hmem, ipRange, hp, hc⟩
    exact ⟨field, hmem, by rw [hp]; exact hc⟩

/-- C1: whenever IsOwnIP fails with an error, allowIP denies with an
error wrapping the underlying enumeration error, for every reserved
classification and every allow-list. -/
theorem claim1_ownIPErrorDenies (isReservedIP : Nat → Bool)
    (isOwnIP : Nat → Except String Bool) (cfg : Config) (ip : Nat) (e : String)
    (h : isOwnIP ip = Except.error e) :
    allowIP isReservedIP isOwnIP cfg ip
      = Except.error (IPError.ownIPCheckFailed e) := by
  simp only [allowIP, h]

/-- C1 witness at a concrete input. -/
theorem claim1_witness :
    (fun _ : Nat => (Except.error "enumeration failed" : Except String Bool)) 2130706433
        = Except.error "enumeration failed"
    ∧ allowIP (fun _ => true)
        (fun _ => Except.error "enumeration failed")
        ⟨⟨some "0.0.0.0/0", none⟩⟩ 2130706433
        = Except.error (IPError.ownIPCheckFailed "enumeration failed") :=
  ⟨rfl, claim1_ownIPErrorDenies (fun _ => true)
    (fun _ => Except.error "enumeration failed")
    ⟨⟨some "0.0.0.0/0", none⟩⟩ 2130706433 "enumeration failed" rfl⟩

/-- C5: a non-reserved, non-own IP with a successful own-IP check is
allowed, whatever the allow-list contains. -/
theorem claim5_publicIPAllowed (isReservedIP : Nat → Bool)
    (isOwnIP : Nat → Except String Bool) (cfg : Config) (ip : Nat)
    (hres : isReservedIP ip = false) (hown : isOwnIP ip = Except.ok false) :
    allowIP isReservedIP isOwnIP cfg ip = Except.ok () := by
  simp only [allowIP, hown, hres, Bool.not_false, Bool.and_self, if_true]

/-- C5 witness: 93.184.216.34 under an empty allow-list. -/
theorem claim5_witness :
    (fun _ : Nat => false) 1572395042 = false
    ∧ (fun _ : Nat => (Except.ok false : Except String Bool)) 1572395042
        = Except.ok false
    ∧ allowIP (fun _ => false) (fun _ => Except.ok false)
        ⟨⟨some "", none⟩⟩ 1572395042 = Except.ok () :=
  ⟨rfl, rfl, claim5_publicIPAllowed (fun _ => false) (fun _ => Except.ok false)
    ⟨⟨some "", none⟩⟩ 1572395042 rfl rfl⟩

/-- C9: with the configuration and the classifier answers held fixed,
re-evaluating the same (host, ip, policy) triple yields the same pair of
decisions: allowHost and allowIP are pure functions of their inputs and
read no hidden state. -/
theorem claim9_decisionDeterministic (isReservedIP : Nat → Bool)
    (isOwnIP : Nat → Except String Bool) (cfg : Config) (host : String)
    (ip : Nat) :
    (allowHost cfg host, allowIP isReservedIP isOwnIP cfg ip)
      = (allowHost cfg host, allowIP isReservedIP isOwnIP cfg ip) := rfl

/-- C2: when the IP is reserved or own (and the own-IP check succeeds),
allowIP allows exactly when some allow-list field parses as a CIDR
containing the IP; otherwise it denies naming the reserved range when
the IP is reserved, else naming the self-assigned address. -/
theorem claim2_reservedOrOwnRequiresCIDRException (isReservedIP : Nat → Bool)
    (isOwnIP : Nat → Except String Bool) (cfg : Config) (ip : Nat) (own : Bool)
    (hown : isOwnIP ip = Except.ok own) (hro : (isReservedIP ip || own) = true) :
    (allowIP isReservedIP isOwnIP cfg ip = Except.ok () ↔
      ∃ field ∈ fieldsFunc splitFields
          (SafeDereference cfg.ServiceSettings.AllowedUntrustedInternalConnections),
        ∃ ipRange, ParseCIDR field = some ipRange ∧ cidrContains ipRange ip = true)
    ∧ (allowIP isReservedIP isOwnIP cfg ip ≠ Except.ok () →
      allowIP isReservedIP isOwnIP cfg ip =
        Except.error (if isReservedIP ip then IPError.reservedRange ip
          else IPError.selfAssigned ip)) := by
  have he := allowIP_reservedOrOwn_eq isReservedIP isOwnIP cfg ip own hown hro
  rw [he, ← cidrScan_exists ip]
  by_cases h : ((fieldsFunc splitFields
      (SafeDereference cfg.ServiceSettings.AllowedUntrustedInternalConnections)).any
      (fun allowed =>
        match ParseCIDR allowed with
        | some ipRange => cidrContains ipRange ip
        | none => false)) = true
  · rw [if_pos h]
    exact ⟨⟨fun _ => h, fun _ => rfl⟩, fun hne => absurd rfl hne⟩
  · rw [if_neg h]
    constructor
    · constructor
      · intro heq
        by_cases hr : isReservedIP ip = true <;>
          simp only [if_pos, if_neg, hr] at heq <;>
          exact Except.noConfusion heq
      · intro ha
        exact absurd ha h
    · intro _
      by_cases hr : isReservedIP ip = true <;> simp [hr]

/-- C2 witness: 127.0.0.1 (reserved, not own) with 127.0.0.0/8 in the
allow-list is allowed. -/
theorem claim2_witness :
    (fun _ : Nat => (Except.ok false : Except String Bool)) 2130706433
        = Except.ok false
    ∧ ((fun _ : Nat => true) 2130706433 || false) = true
    ∧ allowIP (fun _ => true) (fun _ => Except.ok false)
        ⟨⟨some "127.0.0.0/8", none⟩⟩ 2130706433 = Except.ok () :=
  ⟨rfl, rfl,
    (claim2_reservedOrOwnRequiresCIDRException (fun _ => true)
      (fun _ => Except.ok false) ⟨⟨some "127.0.0.0/8", none⟩⟩ 2130706433 false
      rfl rfl).1.mpr
      ⟨"127.0.0.0/8", by decide, ⟨(2130706432, 8), by decide, by decide⟩⟩⟩

/-- C8: a reserved or own IP is allowed only through a field that
successfully parses as a CIDR containing it; no field that fails CIDR
parsing can produce an allow. -/
theorem claim8_onlyParsedCIDRCanAllow (isReservedIP : Nat → Bool)
    (isOwnIP : Nat → Except String Bool) (cfg : Config) (ip : Nat) (own : Bool)
    (hown : isOwnIP ip = Except.ok own) (hro : (isReservedIP ip || own) = true)
    (hok : allowIP isReservedIP isOwnIP cfg ip = Except.ok ()) :
    ∃ field ∈ fieldsFunc splitFields
        (SafeDereference cfg.ServiceSettings.AllowedUntrustedInternalConnections),
      ∃ ipRange, ParseCIDR field = some ipRange ∧
        cidrContains ipRange ip = true := by
  rw [allowIP_reservedOrOwn_eq isReservedIP isOwnIP cfg ip own hown hro] at hok
  rw [← cidrScan_exists ip]
  by_cases h : ((fieldsFunc splitFields
      (SafeDereference cfg.ServiceSettings.AllowedUntrustedInternalConnections)).any
      (fun allowed =>
        match ParseCIDR allowed with
        | some ipRange => cidrContains ipRange ip
        | none => false)) = true
  · exact h
  · exfalso
    rw [if_neg h] at hok
    by_cases hr : isReservedIP ip = true
    · rw [if_pos hr] at hok
      exact Except.noConfusion hok
    · rw [if_neg hr] at hok
      exact Except.noConfusion hok

/-- C8 witness: 10.1.2.3 allowed under the allow-list
"10.0.0.0/8 not-a-cidr", with the guaranteed CIDR witness extracted. -/
theorem claim8_witness :
    (fun _ : Nat => (Except.ok false : Except String Bool)) 167838211
        = Except.ok false
    ∧ ((fun _ : Nat => true) 167838211 || false) = true
    ∧ allowIP (fun _ => true) (fun _ => Except.ok false)
        ⟨⟨some "10.0.0.0/8 not-a-cidr", none⟩⟩ 167838211 = Except.ok ()
    ∧ ∃ field ∈ fieldsFunc splitFields
          (SafeDereference (Config.mk
            ⟨some "10.0.0.0/8 not-a-cidr", none⟩).ServiceSettings.AllowedUntrustedInternalConnections),
        ∃ ipRange, ParseCIDR field = some ipRange ∧
          cidrContains ipRange 167838211 = true :=
  ⟨rfl, rfl, rfl,
    claim8_onlyParsedCIDRCanAllow (fun _ => true) (fun _ => Except.ok false)
      ⟨⟨some "10.0.0.0/8 not-a-cidr", none⟩⟩ 167838211 false rfl rfl rfl⟩

/-- C4 counterexample: the claim says the field "10.0.0.0/8" is not a
member of the host set, but allowHost matches it as a hostname: the code
never filters CIDR-shaped fields out of the host comparison. -/
theorem claim4_counterexample :
    allowHost ⟨⟨some "10.0.0.0/8, internal.example.com  other.local", none⟩⟩
      "10.0.0.0/8" = true := by decide

/-- C4 amended: the allow-list splits at every whitespace or comma
character (the empty string yielding no fields), and the fields that
parse as CIDRs are exactly the CIDR set {10.0.0.0/8}; but hostname
matching does not exclude CIDR-shaped fields: allowHost matches every
field of the string, "10.0.0.0/8" included. -/
theorem claim4_splitFieldsAndSets :
    fieldsFunc splitFields "10.0.0.0/8, internal.example.com  other.local"
      = ["10.0.0.0/8", "internal.example.com", "other.local"]
    ∧ (fieldsFunc splitFields
        "10.0.0.0/8, internal.example.com  other.local").filter
        (fun f => (ParseCIDR f).isSome) = ["10.0.0.0/8"]
    ∧ fieldsFunc splitFields "" = []
    ∧ allowHost ⟨⟨some "10.0.0.0/8, internal.example.com  other.local", none⟩⟩
        "internal.example.com" = true
    ∧ allowHost ⟨⟨some "10.0.0.0/8, internal.example.com  other.local", none⟩⟩
        "other.local" = true
    ∧ allowHost ⟨⟨some "10.0.0.0/8, internal.example.com  other.local", none⟩⟩
        "10.0.0.0/8" = true
    ∧ allowHost ⟨⟨some "10.0.0.0/8, internal.example.com  other.local", none⟩⟩
        "example.com" = false := by decide

/-- C7: allowHost is true exactly when the host equals, as a string,
one of the whitespace/comma separated fields of the allow-list (the nil
allow-list having no fields); and a host match makes the dial-time
destination check succeed before the IP check runs, whatever the IP. -/
theorem claim7_hostTrustIsExactMatch (cfg : Config) (host : String) :
    (allowHost cfg host = true ↔
      host ∈ fieldsFunc splitFields
        (SafeDereference cfg.ServiceSettings.AllowedUntrustedInternalConnections))
    ∧ (∀ (isReservedIP : Nat → Bool) (isOwnIP : Nat → Except String Bool)
        (ip : Nat), allowHost cfg host = true →
        checkDestination (allowHost cfg) (allowIP isReservedIP isOwnIP cfg)
          host ip = Except.ok ()) := by
  constructor
  · unfold allowHost SafeDereference
    cases h : cfg.ServiceSettings.AllowedUntrustedInternalConnections with
    | none => simp [fieldsFunc_empty]
    | some s => simp
  · intro isReservedIP isOwnIP ip hh
    unfold checkDestination
    rw [hh]
    simp

/-- C7 witness: the host internal.example.com in the allow-list is
matched and short-circuits the IP check for the reserved IP 10.0.0.5. -/
theorem claim7_witness :
    allowHost ⟨⟨some "internal.example.com", none⟩⟩ "internal.example.com" = true
    ∧ checkDestination (allowHost ⟨⟨some "internal.example.com", none⟩⟩)
        (allowIP (fun _ => true) (fun _ => Except.ok false)
          ⟨⟨some "internal.example.com", none⟩⟩)
        "internal.example.com" 167772165 = Except.ok () :=
  ⟨by decide,
    (claim7_hostTrustIsExactMatch ⟨⟨some "internal.example.com", none⟩⟩
      "internal.example.com").2 (fun _ => true) (fun _ => Except.ok false)
      167772165 (by decide)⟩

/-- C3 counterexample: the checks built by MakeTransport(false) call the
live configuration source each time they run, so changing the allow-list
between two evaluations of the same host changes the decision: with a
configuration source that answers none at state false and an allow-list
naming internal.example.com at state true, the host check of one and
the same transport denies at one state and allows at the other. -/
theorem claim3_counterexample :
    ((MakeTransport (fun _ => false) (fun _ => Except.ok false)
        (fun (b : Bool) =>
          { ServiceSettings :=
            { AllowedUntrustedInternalConnections :=
                if b then some "internal.example.com" else none,
              EnableInsecureOutgoingConnections := none } })
        false false).allowHostCheck.map
        (fun f => (f false "internal.example.com", f true "internal.example.com")))
      = some (false, true) := by decide

/-- C3 amended: only the insecure flag is captured at the MakeTransport
call; the host and IP checks of the returned transport re-read the live
configuration at every evaluation, so each decision is a pure function
of the configuration current at that evaluation. -/
theorem claim3_policyReadAtEachEvaluation {σ : Type}
    (isReservedIP : Nat → Bool) (isOwnIP : Nat → Except String Bool)
    (configService : σ → Config) (s0 s : σ) (host : String) (ip : Nat) :
    ((MakeTransport isReservedIP isOwnIP configService s0 false).allowHostCheck.map
        (fun f => f s host) = some (allowHost (configService s) host))
    ∧ ((MakeTransport isReservedIP isOwnIP configService s0 false).allowIPCheck.map
        (fun f => f s ip)
        = some (allowIP isReservedIP isOwnIP (configService s) ip))
    ∧ ((MakeTransport isReservedIP isOwnIP configService s0 false).insecure
        = match (configService s0).ServiceSettings.EnableInsecureOutgoingConnections with
          | some b => b
          | none => false) :=
  ⟨rfl, rfl, rfl⟩

/-- C6: in trusted mode the transport carries no host check and no IP
check, while the insecure flag is still read from the configuration at
the MakeTransport call. -/
theorem claim6_trustedModeSkipsChecks {σ : Type}
    (isReservedIP : Nat → Bool) (isOwnIP : Nat → Except String Bool)
    (configService : σ → Config) (s0 : σ) :
    (MakeTransport isReservedIP isOwnIP configService s0 true).allowHostCheck = none
    ∧ (MakeTransport isReservedIP isOwnIP configService s0 true).allowIPCheck = none
    ∧ (MakeTransport isReservedIP isOwnIP configService s0 true).insecure
        = ((configService s0).ServiceSettings.EnableInsecureOutgoingConnections).getD false := by
  refine ⟨rfl, rfl, ?_⟩
  cases h : (configService s0).ServiceSettings.EnableInsecureOutgoingConnections with
  | none => simp [MakeTransport, NewTransport, h]
  | some b => simp [MakeTransport, NewTransport, h]

/-- C10: nil configuration fields default to the secure side: a nil
allow-list makes allowHost deny every host and leaves a reserved or own
IP without any CIDR exception, and a nil insecure flag yields a
transport with insecure = false. -/
theorem claim10_nilConfigDefaultsSecure {σ : Type}
    (isReservedIP : Nat → Bool) (isOwnIP : Nat → Except String Bool)
    (configService : σ → Config) (s0 : σ) (trustURLs : Bool) (host : String)
    (ip : Nat) (own : Bool)
    (hallow : (configService s0).ServiceSettings.AllowedUntrustedInternalConnections = none)
    (hins : (configService s0).ServiceSettings.EnableInsecureOutgoingConnections = none)
    (hown : isOwnIP ip = Except.ok own) (hro : (isReservedIP ip || own) = true) :
    allowHost (configService s0) host = false
    ∧ allowIP isReservedIP isOwnIP (configService s0) ip
        = Except.error (if isReservedIP ip then IPError.reservedRange ip
            else IPError.selfAssigned ip)
    ∧ (MakeTransport isReservedIP isOwnIP configService s0 trustURLs).insecure
        = false := by
  refine ⟨?_, ?_, ?_⟩
  · simp [allowHost, hallow]
  · rw [allowIP_reservedOrOwn_eq isReservedIP isOwnIP (configService s0) ip own
      hown hro, hallow]
    simp only [SafeDereference, fieldsFunc_empty, List.any_nil,
      Bool.false_eq_true, if_false]
    by_cases hr : isReservedIP ip = true <;> simp [hr]
  · cases trustURLs <;> simp [MakeTransport, NewTransport, hins]

/-- C10 witness: the all-nil configuration denies the reserved IP
127.0.0.1 and produces a secure transport. -/
theorem claim10_witness :
    allowHost ⟨⟨none, none⟩⟩ "internal.example.com" = false
    ∧ allowIP (fun _ => true) (fun _ => Except.ok false) ⟨⟨none, none⟩⟩
        2130706433 = Except.error (IPError.reservedRange 2130706433)
    ∧ (MakeTransport (fun _ => true) (fun _ => Except.ok false)
        (fun _ : Unit => ⟨⟨none, none⟩⟩) () false).insecure = false := by
  have h := claim10_nilConfigDefaultsSecure (fun _ => true)
    (fun _ => Except.ok false) (fun _ : Unit => ⟨⟨none, none⟩⟩) () false
    "internal.example.com" 2130706433 false rfl rfl rfl rfl
  exact ⟨h.1, by simpa using h.2.1, h.2.2⟩
